import Mathlib

/-!
Shallow embedding of the game-session orchestration root of openage
(src/libopenage/gamestate/game.h) together with the behaviour of its
operations.  The header only declares the class `Game` (constructor,
`get_state`, `attach_renderer`, the owned members `db`, `state`,
`universe` and a defaulted destructor); the implementation file is not
part of the sources, so the dynamic behaviour of the operations is
modelled from the specification where noted.  Facts that are decided by
the header alone (declared types, member declaration order, which
special member functions are user-declared) are embedded directly from
the header.
-/

namespace Openage

/-- Modelled from the spec: the parsed content of a game-data definition
store (the nyan database loaded from the root directory).  The class
body is not under the sources; the spec describes it as a declarative
database of game-object/rule definitions.  `complete` records whether
the definitions suffice to build GameState/Universe (missing required
rule definitions make it false). -/
structure Defs where
  settings : Nat
  win_conditions : List Nat
  unit_defs : List Nat
  complete : Bool
  deriving Repr, DecidableEq

/-- Errors of game construction, from the spec's error taxonomy:
`DataLoadError` (root directory missing/unreadable/malformed) and
`ConstructionError` (loaded definitions insufficient). -/
inductive GameError
  | dataLoadError
  | constructionError
  deriving Repr, DecidableEq

/-- Modelled from the spec: session-scoped data held by GameState
(settings, win/loss conditions); the class body is not under the
sources. -/
structure GameState where
  settings : Nat
  win_conditions : List Nat
  deriving Repr, DecidableEq

/-- Modelled from the spec: a game entity owned by the Universe.  The
`connector` field records the render factory (by handle) that built the
entity's presentation connector, `none` when the entity presents
nothing. -/
structure Entity where
  eid : Nat
  sim_data : Nat
  connector : Option Nat
  deriving Repr, DecidableEq

/-- Modelled from the spec: the Universe owns the live entity graph,
holds a non-owning back-reference to the GameState, registers with the
event loop at construction, and optionally holds the currently attached
render factory.  Shared-pointer handles are modelled as naturals, `0`
standing for the null handle. -/
structure Universe where
  state_ref : Nat
  event_loop_ref : Nat
  render_factory : Option Nat
  entities : List Entity
  deriving Repr, DecidableEq

/-- The `Game` class of game.h: it owns a nyan database handle `db`, a
GameState handle `state_ref` (with contents `state`) and a Universe
handle `univ_ref` (with contents `univ`), mirroring the three
`std::shared_ptr` members declared at game.h lines 67, 72 and 77.
Handles are naturals, `0` standing for the null shared pointer.  (The
member is called `universe` in the header; `univ` is used here because
`universe` is a reserved word of Lean.) -/
structure Game where
  db : Nat
  state_ref : Nat
  state : GameState
  univ_ref : Nat
  univ : Universe
  deriving Repr, DecidableEq

/-- Modelled from the spec: the environment seen by the constructor, a
loader taking a root-directory handle to the parsed definitions, `none`
when the directory holds no valid/parsable definitions. -/
structure World where
  load : Nat → Option Defs

/-- Modelled from the spec: instantiating one entity from a unit
definition; its connector is built from the currently attached render
factory (`none` at construction time). -/
def mk_entity (rf : Option Nat) (d : Nat) : Entity :=
  { eid := d, sim_data := d, connector := rf }

/-- Modelled from the spec: the constructor
`Game(root_dir, event_loop)` declared at game.h lines 45-46.  It loads
the data store from the root directory (failing with `DataLoadError` if
the directory does not contain valid/parsable definitions), then builds
GameState and Universe from the loaded definitions (failing with
`ConstructionError` when the definitions are insufficient), wiring the
Universe to the event loop and to the GameState.  Failure leaves no
partially built `Game`: the result is an `Except`, so either a complete
`Game` value exists or only an error does. -/
def construct (w : World) (root_dir : Nat) (event_loop : Nat) :
    Except GameError Game :=
  match w.load root_dir with
  | none => .error .dataLoadError
  | some defs =>
    if defs.complete then
      .ok
        { db := 1
          state_ref := 2
          state :=
            { settings := defs.settings
              win_conditions := defs.win_conditions }
          univ_ref := 3
          univ :=
            { state_ref := 2
              event_loop_ref := event_loop
              render_factory := none
              entities := defs.unit_defs.map (mk_entity none) } }
    else .error .constructionError

/-- The accessor `get_state` declared at game.h line 52: it returns the
shared-pointer handle of the current GameState.  It is a `const` member
function, embedded as a pure function on `Game`. -/
def get_state (g : Game) : Nat :=
  g.state_ref

/-- Modelled from the spec: rebuilding one entity's presentation
connector from an attached render factory (`none` detaches it). -/
def attach_entity (rf : Option Nat) (e : Entity) : Entity :=
  { e with connector := rf }

/-- Modelled from the spec: `attach_renderer` declared at game.h
line 61.  It propagates the factory (or the explicit `none`) into the
Universe, which rebuilds the presentation connectors of every
currently-live entity and records the factory for entities created
afterwards.  It is total: no error is raised and no failure value is
returned. -/
def attach_renderer (g : Game) (rf : Option Nat) : Game :=
  { g with
    univ :=
      { g.univ with
        render_factory := rf
        entities := g.univ.entities.map (attach_entity rf) } }

/-- Modelled from the spec: creation of a new entity after
construction; its connector is built from the currently attached render
factory. -/
def spawn_entity (g : Game) (e sim : Nat) : Game :=
  { g with
    univ :=
      { g.univ with
        entities :=
          { eid := e, sim_data := sim
            connector := g.univ.render_factory } :: g.univ.entities } }

/-- Modelled from the spec: a sequence of entity creations. -/
def spawn_many (g : Game) (l : List (Nat × Nat)) : Game :=
  l.foldl (fun acc p => spawn_entity acc p.1 p.2) g

/-- Modelled from the spec: one EventLoop-dispatched callback into the
Universe, the only mutation path of simulation state.  It updates the
session-scoped GameState data and each entity's simulation data; it
never touches the owned handles. -/
def sim_step (g : Game) (ev : Nat) : Game :=
  { g with
    state := { g.state with settings := g.state.settings + ev }
    univ :=
      { g.univ with
        entities :=
          g.univ.entities.map
            (fun e => { e with sim_data := e.sim_data + ev }) } }

/-- The three owned shared-pointer handles of a `Game`, in declaration
order of game.h (db, state, universe). -/
def handles (g : Game) : Nat × Nat × Nat :=
  (g.db, g.state_ref, g.univ_ref)

/-- The simulation-relevant observable state of a game: the GameState
contents and each entity's identity and simulation data (connectors and
the attached factory are presentation-only). -/
def sim_relevant (g : Game) : GameState × List (Nat × Nat) :=
  (g.state, g.univ.entities.map (fun e => (e.eid, e.sim_data)))

/-- A complete, internally consistent game: all three owned handles are
non-null and the Universe's back-reference targets the owned
GameState. -/
def complete_game (g : Game) : Bool :=
  g.db != 0 && g.state_ref != 0 && g.univ_ref != 0 &&
    g.univ.state_ref == g.state_ref

/-- The declared type of a C++ reference to a shared pointer, as it
appears in a member-function signature: whether the reference is to a
`const` shared pointer, and whether the pointee type is `const`. -/
structure SharedPtrRefType where
  ref_const : Bool
  pointee_const : Bool
  deriving Repr, DecidableEq

/-- The return type of `Game::get_state` at game.h line 52:
`const std::shared_ptr<GameState> &` — a const reference to a shared
pointer whose pointee type `GameState` is not `const`. -/
def get_state_return_type : SharedPtrRefType :=
  { ref_const := true, pointee_const := false }

/-- A C++ reference of this shape grants read-only access to the
pointed-to object exactly when the pointee type is `const`: a const
`std::shared_ptr<T>` still dereferences to a mutable `T &`. -/
def grants_read_only_access (t : SharedPtrRefType) : Bool :=
  t.pointee_const

/-- Which special member functions a C++ class declares itself
(user-declared, even if `= default`). -/
structure SpecialMemberDecls where
  user_dtor : Bool
  user_copy_ctor : Bool
  user_copy_assign : Bool
  user_move_ctor : Bool
  user_move_assign : Bool
  deriving Repr, DecidableEq

/-- The special members user-declared by `Game` in game.h: only the
destructor (`~Game() = default;` at line 47) — the declared constructor
`Game(root_dir, event_loop)` is not a special member. -/
def game_special_members : SpecialMemberDecls :=
  { user_dtor := true
    user_copy_ctor := false
    user_copy_assign := false
    user_move_ctor := false
    user_move_assign := false }

/-- C++ rule: the copy constructor is implicitly declared when no copy
constructor is user-declared, and it is defined as deleted when a move
constructor or move assignment is user-declared.  (A user-declared
destructor only deprecates it; it stays available.) -/
def implicit_copy_ctor_available (d : SpecialMemberDecls) : Bool :=
  !d.user_copy_ctor && !d.user_move_ctor && !d.user_move_assign

/-- C++ rule: the move constructor is implicitly declared only when the
class has no user-declared copy constructor, copy assignment, move
assignment or destructor. -/
def implicit_move_ctor_available (d : SpecialMemberDecls) : Bool :=
  !d.user_dtor && !d.user_copy_ctor && !d.user_copy_assign &&
    !d.user_move_ctor && !d.user_move_assign

/-- The defaulted copy of a `Game`: member-wise copy of the three
shared-pointer members, so the copy holds the very same handles (and
hence shares the pointed-to GameState, Universe and database). -/
def copy_game (g : Game) : Game :=
  { db := g.db
    state_ref := g.state_ref
    state := g.state
    univ_ref := g.univ_ref
    univ := g.univ }

/-- The three data members of `Game` (`universe` of the header is
spelled `univ` here, see `Game`). -/
inductive GameMember
  | db
  | state
  | univ
  deriving Repr, DecidableEq

/-- Declaration order of the members in game.h: `db` at line 67,
`state` at line 72, `universe` at line 77. -/
def game_member_decl_order : List GameMember :=
  [.db, .state, .univ]

/-- C++ rule applied by the defaulted destructor `~Game() = default;`:
non-static data members are destroyed in reverse order of their
declaration. -/
def member_destruction_order (l : List GameMember) : List GameMember :=
  l.reverse

/-- A concrete, complete definition store used to exercise the model. -/
def demo_defs : Defs :=
  { settings := 5, win_conditions := [7], unit_defs := [10, 11]
    complete := true }

/-- A concrete environment: root directory `0` holds `demo_defs`,
root directory `1` holds definitions missing required rules, every
other root directory holds nothing parsable. -/
def demo_world : World :=
  { load := fun r =>
      if r = 0 then some demo_defs
      else if r = 1 then some { demo_defs with complete := false }
      else none }

/-- The game built by `construct demo_world 0 9`. -/
def demo_game : Game :=
  { db := 1
    state_ref := 2
    state := { settings := 5, win_conditions := [7] }
    univ_ref := 3
    univ :=
      { state_ref := 2
        event_loop_ref := 9
        render_factory := none
        entities := [mk_entity none 10, mk_entity none 11] } }

/-- Sanity lemma: `demo_game` is exactly the game the constructor
builds from root directory `0` and event loop `9`. -/
theorem demo_game_constructed : construct demo_world 0 9 = .ok demo_game :=
  rfl

/-- Claim C1: Game construction is all-or-nothing.  It fails with
`DataLoadError` exactly when the root directory holds no valid/parsable
definitions, with `ConstructionError` exactly when the loaded
definitions are insufficient, and in either failure case the result is
an error, so no partially-usable Game exists; on success the Game is
complete and internally consistent, with its Universe bound to the
given event loop. -/
theorem construct_all_or_nothing (w : World) (r e : Nat) :
    (construct w r e = .error .dataLoadError ↔ w.load r = none)
    ∧ (construct w r e = .error .constructionError ↔
        ∃ d, w.load r = some d ∧ d.complete = false)
    ∧ ∀ g, construct w r e = .ok g →
        complete_game g = true ∧ g.univ.event_loop_ref = e := by
  unfold construct
  cases hl : w.load r with
  | none => simp
  | some d =>
    by_cases hc : d.complete = true
    · simp [hc, complete_game]
    · simp only [Bool.not_eq_true] at hc
      simp [hc]

/-- Witness for C1 at concrete inputs: an unparsable root directory, a
root directory with incomplete definitions, and a valid one. -/
theorem construct_all_or_nothing_witness :
    construct demo_world 5 9 = .error .dataLoadError
    ∧ construct demo_world 1 9 = .error .constructionError
    ∧ (complete_game demo_game = true
        ∧ demo_game.univ.event_loop_ref = 9) :=
  ⟨(construct_all_or_nothing demo_world 5 9).1.mpr rfl,
    (construct_all_or_nothing demo_world 1 9).2.1.mpr ⟨_, rfl, rfl⟩,
    (construct_all_or_nothing demo_world 0 9).2.2 demo_game rfl⟩

/-- Claim C2: a successfully constructed Game has exactly one GameState
and one Universe reachable from it: both handles are non-null, the
Universe's back-reference targets that very GameState, and no
subsequent operation (attach_renderer, event-loop callbacks, entity
creation, get_state) reassigns or replaces either handle. -/
theorem one_state_one_universe (w : World) (r e : Nat) (g : Game)
    (h : construct w r e = .ok g) :
    (g.state_ref ≠ 0 ∧ g.univ_ref ≠ 0 ∧ g.univ.state_ref = g.state_ref)
    ∧ (∀ rf, handles (attach_renderer g rf) = handles g
        ∧ (attach_renderer g rf).univ.state_ref = g.univ.state_ref)
    ∧ (∀ ev, handles (sim_step g ev) = handles g
        ∧ (sim_step g ev).univ.state_ref = g.univ.state_ref)
    ∧ (∀ en sim, handles (spawn_entity g en sim) = handles g)
    ∧ ∀ rf, get_state (attach_renderer g rf) = get_state g := by
  refine ⟨?_, fun rf => ⟨rfl, rfl⟩, fun ev => ⟨rfl, rfl⟩,
    fun en sim => rfl, fun rf => rfl⟩
  unfold construct at h
  split at h
  · exact absurd h (by simp)
  · split at h
    · injection h with h
      subst h
      exact ⟨Nat.succ_ne_zero 1, Nat.succ_ne_zero 2, rfl⟩
    · exact absurd h (by simp)

/-- Witness for C2 at the concrete constructed game. -/
theorem one_state_one_universe_witness :
    (demo_game.state_ref ≠ 0 ∧ demo_game.univ_ref ≠ 0
      ∧ demo_game.univ.state_ref = demo_game.state_ref)
    ∧ handles (attach_renderer demo_game (some 4)) = handles demo_game :=
  ⟨(one_state_one_universe demo_world 0 9 demo_game rfl).1,
    ((one_state_one_universe demo_world 0 9 demo_game rfl).2.1 (some 4)).1⟩

/-- Counterexample to C3: the reference obtained via `get_state` does
not grant read access only.  Its declared return type at game.h
line 52 is `const std::shared_ptr<GameState> &`, whose pointee type
`GameState` is not `const`, so dereferencing the returned shared
pointer yields a mutable `GameState &`. -/
theorem get_state_return_not_read_only :
    grants_read_only_access get_state_return_type = false := rfl

/-- Claim C3 as amended: the Game's own public operations never mutate
GameState (attach_renderer leaves it unchanged and get_state is a pure
accessor of the handle), and GameState mutation is driven by
EventLoop-dispatched callbacks; but the reference obtained via
`get_state` grants mutable access, not read-only access — the
read-only discipline is a convention the declared interface does not
enforce. -/
theorem gamestate_mutation_discipline (g : Game) (rf : Option Nat)
    (ev : Nat) :
    (attach_renderer g rf).state = g.state
    ∧ get_state g = g.state_ref
    ∧ (sim_step g ev).state.settings = g.state.settings + ev
    ∧ grants_read_only_access get_state_return_type = false :=
  ⟨rfl, rfl, rfl, rfl⟩

/-- Claim C4: once a Game is constructed from a valid root directory,
`get_state` returns the non-null handle of the current GameState, has
no side effects (it is a pure accessor, unchanged by any interleaved
operation), and never fails. -/
theorem get_state_never_fails (w : World) (r e : Nat) (g : Game)
    (h : construct w r e = .ok g) :
    get_state g ≠ 0
    ∧ get_state g = g.state_ref
    ∧ (∀ rf, get_state (attach_renderer g rf) = get_state g)
    ∧ ∀ ev, get_state (sim_step g ev) = get_state g := by
  refine ⟨?_, rfl, fun rf => rfl, fun ev => rfl⟩
  unfold construct at h
  split at h
  · exact absurd h (by simp)
  · split at h
    · injection h with h
      subst h
      exact Nat.succ_ne_zero 1
    · exact absurd h (by simp)

/-- Witness for C4 at the concrete constructed game. -/
theorem get_state_never_fails_witness :
    get_state demo_game ≠ 0 ∧ get_state demo_game = demo_game.state_ref :=
  ⟨(get_state_never_fails demo_world 0 9 demo_game rfl).1,
    (get_state_never_fails demo_world 0 9 demo_game rfl).2.1⟩

/-- Claim C5: attaching the same render factory twice in a row is
observably equivalent to attaching it once — the second call is a
no-op. -/
theorem attach_renderer_idempotent (g : Game) (rf : Option Nat) :
    attach_renderer (attach_renderer g rf) rf = attach_renderer g rf := by
  unfold attach_renderer attach_entity
  rw [List.map_map]
  rfl

/-- Claim C6: attaching a new factory atomically supersedes the
previous one.  After `attach_renderer F1`, any number of entity
creations, and `attach_renderer F2` with `F1 ≠ F2`, every entity owned
by the Universe holds a connector built from F2 and none holds a
connector built from F1. -/
theorem attach_new_factory_supersedes (g : Game) (f1 f2 : Nat)
    (h : f1 ≠ f2) (spawns : List (Nat × Nat)) :
    ∀ ent ∈ (attach_renderer
        (spawn_many (attach_renderer g (some f1)) spawns)
        (some f2)).univ.entities,
      ent.connector = some f2 ∧ ent.connector ≠ some f1 := by
  intro ent hmem
  simp only [attach_renderer, List.mem_map] at hmem
  obtain ⟨x, hx, rfl⟩ := hmem
  refine ⟨rfl, ?_⟩
  simp only [attach_entity, ne_eq, Option.some.injEq]
  exact fun heq => h heq.symm

/-- Witness for C6: an entity created between the two attachments ends
holding a connector from the second factory only. -/
theorem attach_new_factory_supersedes_witness :
    (Entity.mk 20 0 (some 5)).connector = some 5
    ∧ (Entity.mk 20 0 (some 5)).connector ≠ some 4 :=
  attach_new_factory_supersedes demo_game 4 5 (by decide) [(20, 0)]
    (Entity.mk 20 0 (some 5)) (by decide)

/-- Claim C7: attaching or detaching a renderer never alters the
GameState or the Universe's simulation-relevant state, the transition
is last-writer-wins (hence reversible between the none and attached
states), and `attach_renderer none` detaches rendering: no factory is
recorded and every entity presents nothing. -/
theorem attach_detach_preserves_simulation (g : Game) (a b : Option Nat) :
    sim_relevant (attach_renderer g a) = sim_relevant g
    ∧ attach_renderer (attach_renderer g a) b = attach_renderer g b
    ∧ (attach_renderer g none).univ.render_factory = none
    ∧ ∀ ent ∈ (attach_renderer g none).univ.entities,
        ent.connector = none := by
  refine ⟨?_, ?_, rfl, ?_⟩
  · unfold sim_relevant attach_renderer attach_entity
    rw [List.map_map]
    rfl
  · unfold attach_renderer attach_entity
    rw [List.map_map]
    rfl
  · intro ent hmem
    simp only [attach_renderer, List.mem_map] at hmem
    obtain ⟨x, hx, rfl⟩ := hmem
    rfl

/-- Witness for C7 at the concrete constructed game. -/
theorem attach_detach_preserves_simulation_witness :
    sim_relevant (attach_renderer demo_game (some 4)) =
      sim_relevant demo_game
    ∧ (Entity.mk 10 10 none).connector = none :=
  ⟨(attach_detach_preserves_simulation demo_game (some 4) none).1,
    (attach_detach_preserves_simulation demo_game (some 4) none).2.2.2
      (Entity.mk 10 10 none) (by decide)⟩

/-- Claim C8: `attach_renderer` never fails.  It is a total function:
for every game and every input (a factory handle or the explicit none)
it yields a game in which exactly the requested attachment is in
effect, and the absence or presence of a renderer never affects the
simulation-relevant state or the GameState handle. -/
theorem attach_renderer_never_fails (g : Game) (rf : Option Nat) :
    (attach_renderer g rf).univ.render_factory = rf
    ∧ sim_relevant (attach_renderer g rf) = sim_relevant g
    ∧ get_state (attach_renderer g rf) = get_state g := by
  refine ⟨rfl, ?_, rfl⟩
  unfold sim_relevant attach_renderer attach_entity
  rw [List.map_map]
  rfl

/-- Counterexample to C9: the compiler-generated move operations are
not available for `Game`.  The user-declared destructor
(`~Game() = default;` at game.h line 47) suppresses the implicit
declaration of the move constructor and move assignment. -/
theorem game_move_ops_not_generated :
    implicit_move_ctor_available game_special_members = false := rfl

/-- Claim C9 as amended: `Game` leaves the compiler-generated copy
operations available (no copy or move operation is user-declared), and
copy-constructing a Game performs a member-wise copy of its three
shared-pointer members, so the copy's `get_state` returns the very
same GameState handle and the copy shares the same Universe and
database handles; the compiler-generated move operations, however, are
suppressed by the user-declared destructor, so move expressions fall
back to copying. -/
theorem game_copy_shares_components (g : Game) :
    implicit_copy_ctor_available game_special_members = true
    ∧ copy_game g = g
    ∧ get_state (copy_game g) = get_state g
    ∧ (copy_game g).univ_ref = g.univ_ref
    ∧ (copy_game g).db = g.db :=
  ⟨rfl, rfl, rfl, rfl, rfl⟩

/-- Claim C10: the defaulted destructor releases the owned members in
reverse declaration order — the Universe handle first, then the
GameState handle, then the database handle — so the GameState and the
data store outlive the Universe's teardown. -/
theorem game_members_destroyed_in_reverse_order :
    member_destruction_order game_member_decl_order =
      [GameMember.univ, GameMember.state, GameMember.db]
    ∧ game_member_decl_order =
      [GameMember.db, GameMember.state, GameMember.univ] :=
  ⟨rfl, rfl⟩

end Openage
